import Mathlib

/-!
Verification of the closure-templates Python runtime against its
natural-language specification.

The development shallow-embeds the relevant parts of the source files
(src/python/generated_sanitize.py, src/python/runtime.py, src/python/bidi.py)
as executable Lean definitions and proves the specified properties about
them.  Python strings are modelled as Lean String / List Char; Python
regular expressions over single-character classes are modelled as
character predicates; the anchored whitelist regexes of the filter family
are modelled by a small nondeterministic matching combinator library that
transcribes each regex syntax tree; Python exceptions are modelled with
Except / Option.
-/

namespace Soy

/-! ## Escape maps (generated_sanitize.py, lines 25-197)

Each Python dict literal is transcribed as an association list from the
matched character to its replacement string. -/

/-- Source: _ESCAPE_MAP_FOR_ESCAPE_HTML__AND__NORMALIZE_HTML__AND__ESCAPE_HTML_NOSPACE__AND__NORMALIZE_HTML_NOSPACE. -/
def escapeMapForEscapeHtml : List (Char × String) := [
  ('\x00', "&#0;"),
  ('\x09', "&#9;"),
  ('\x0a', "&#10;"),
  ('\x0b', "&#11;"),
  ('\x0c', "&#12;"),
  ('\x0d', "&#13;"),
  (' ', "&#32;"),
  ('\"', "&quot;"),
  ('&', "&amp;"),
  ('\'', "&#39;"),
  ('-', "&#45;"),
  ('/', "&#47;"),
  ('<', "&lt;"),
  ('=', "&#61;"),
  ('>', "&gt;"),
  ('`', "&#96;"),
  ('\x85', "&#133;"),
  ('\xa0', "&#160;"),
  ('\u2028', "&#8232;"),
  ('\u2029', "&#8233;")]

/-- Source: _ESCAPE_MAP_FOR_ESCAPE_JS_STRING__AND__ESCAPE_JS_REGEX. -/
def escapeMapForEscapeJs : List (Char × String) := [
  ('\x00', "\\x00"),
  ('\x08', "\\x08"),
  ('\x09', "\\t"),
  ('\x0a', "\\n"),
  ('\x0b', "\\x0b"),
  ('\x0c', "\\f"),
  ('\x0d', "\\r"),
  ('\"', "\\x22"),
  ('$', "\\x24"),
  ('&', "\\x26"),
  ('\'', "\\x27"),
  ('(', "\\x28"),
  (')', "\\x29"),
  ('*', "\\x2a"),
  ('+', "\\x2b"),
  (',', "\\x2c"),
  ('-', "\\x2d"),
  ('.', "\\x2e"),
  ('/', "\\/"),
  (':', "\\x3a"),
  ('<', "\\x3c"),
  ('=', "\\x3d"),
  ('>', "\\x3e"),
  ('?', "\\x3f"),
  ('[', "\\x5b"),
  ('\\', "\\\\"),
  (']', "\\x5d"),
  ('^', "\\x5e"),
  ('\x7b', "\\x7b"),
  ('|', "\\x7c"),
  ('\x7d', "\\x7d"),
  ('\x85', "\\x85"),
  ('\u2028', "\\u2028"),
  ('\u2029', "\\u2029")]

/-- Source: _ESCAPE_MAP_FOR_ESCAPE_CSS_STRING. -/
def escapeMapForEscapeCssString : List (Char × String) := [
  ('\x00', "\\0 "),
  ('\x08', "\\8 "),
  ('\x09', "\\9 "),
  ('\x0a', "\\a "),
  ('\x0b', "\\b "),
  ('\x0c', "\\c "),
  ('\x0d', "\\d "),
  ('\"', "\\22 "),
  ('&', "\\26 "),
  ('\'', "\\27 "),
  ('(', "\\28 "),
  (')', "\\29 "),
  ('*', "\\2a "),
  ('/', "\\2f "),
  (':', "\\3a "),
  (';', "\\3b "),
  ('<', "\\3c "),
  ('=', "\\3d "),
  ('>', "\\3e "),
  ('@', "\\40 "),
  ('\\', "\\5c "),
  ('\x7b', "\\7b "),
  ('\x7d', "\\7d "),
  ('\x85', "\\85 "),
  ('\xa0', "\\a0 "),
  ('\u2028', "\\2028 "),
  ('\u2029', "\\2029 ")]

/-- Source: _ESCAPE_MAP_FOR_NORMALIZE_URI__AND__FILTER_NORMALIZE_URI__AND__FILTER_NORMALIZE_MEDIA_URI. -/
def escapeMapForNormalizeUri : List (Char × String) := [
  ('\x00', "%00"),
  ('\x01', "%01"),
  ('\x02', "%02"),
  ('\x03', "%03"),
  ('\x04', "%04"),
  ('\x05', "%05"),
  ('\x06', "%06"),
  ('\x07', "%07"),
  ('\x08', "%08"),
  ('\x09', "%09"),
  ('\x0a', "%0A"),
  ('\x0b', "%0B"),
  ('\x0c', "%0C"),
  ('\x0d', "%0D"),
  ('\x0e', "%0E"),
  ('\x0f', "%0F"),
  ('\x10', "%10"),
  ('\x11', "%11"),
  ('\x12', "%12"),
  ('\x13', "%13"),
  ('\x14', "%14"),
  ('\x15', "%15"),
  ('\x16', "%16"),
  ('\x17', "%17"),
  ('\x18', "%18"),
  ('\x19', "%19"),
  ('\x1a', "%1A"),
  ('\x1b', "%1B"),
  ('\x1c', "%1C"),
  ('\x1d', "%1D"),
  ('\x1e', "%1E"),
  ('\x1f', "%1F"),
  (' ', "%20"),
  ('\"', "%22"),
  ('\'', "%27"),
  ('(', "%28"),
  (')', "%29"),
  ('<', "%3C"),
  ('>', "%3E"),
  ('\\', "%5C"),
  ('\x7b', "%7B"),
  ('\x7d', "%7D"),
  ('\x7f', "%7F"),
  ('\x85', "%C2%85"),
  ('\xa0', "%C2%A0"),
  ('\u2028', "%E2%80%A8"),
  ('\u2029', "%E2%80%A9"),
  ('\uff01', "%EF%BC%81"),
  ('\uff03', "%EF%BC%83"),
  ('\uff04', "%EF%BC%84"),
  ('\uff06', "%EF%BC%86"),
  ('\uff07', "%EF%BC%87"),
  ('\uff08', "%EF%BC%88"),
  ('\uff09', "%EF%BC%89"),
  ('\uff0a', "%EF%BC%8A"),
  ('\uff0b', "%EF%BC%8B"),
  ('\uff0c', "%EF%BC%8C"),
  ('\uff0f', "%EF%BC%8F"),
  ('\uff1a', "%EF%BC%9A"),
  ('\uff1b', "%EF%BC%9B"),
  ('\uff1d', "%EF%BC%9D"),
  ('\uff1f', "%EF%BC%9F"),
  ('\uff20', "%EF%BC%A0"),
  ('\uff3b', "%EF%BC%BB"),
  ('\uff3d', "%EF%BC%BD")]

/-! ## Matcher character classes (generated_sanitize.py, lines 200-214)

Each matcher regex is a single-character class; it is transcribed as a
Boolean predicate on characters, keeping the source ranges. -/

/-- Source: _MATCHER_FOR_ESCAPE_HTML, the class [\x00\x22\x26\x27\x3c\x3e]. -/
def matcherForEscapeHtml (c : Char) : Bool :=
  c == '\x00' || c == '\x22' || c == '\x26' || c == '\x27' || c == '\x3c' || c == '\x3e'

/-- Source: _MATCHER_FOR_ESCAPE_HTML_NOSPACE,
the class [\x00\x09-\x0d \x22\x26\x27\x2d\/\x3c-\x3e\x60\x85\xa0<u2028><u2029>]. -/
def matcherForEscapeHtmlNospace (c : Char) : Bool :=
  c == '\x00' || ('\x09' ≤ c && c ≤ '\x0d') || c == ' ' || c == '\x22' || c == '\x26' ||
  c == '\x27' || c == '\x2d' || c == '/' || ('\x3c' ≤ c && c ≤ '\x3e') || c == '\x60' ||
  c == '\x85' || c == '\xa0' || c == '\u2028' || c == '\u2029'

/-- Source: _MATCHER_FOR_ESCAPE_JS_STRING,
the class [\x00\x08-\x0d\x22\x26\x27\/\x3c-\x3e\x5b-\x5d\x7b\x7d\x85<u2028><u2029>]. -/
def matcherForEscapeJsString (c : Char) : Bool :=
  c == '\x00' || ('\x08' ≤ c && c ≤ '\x0d') || c == '\x22' || c == '\x26' || c == '\x27' ||
  c == '/' || ('\x3c' ≤ c && c ≤ '\x3e') || ('\x5b' ≤ c && c ≤ '\x5d') || c == '\x7b' ||
  c == '\x7d' || c == '\x85' || c == '\u2028' || c == '\u2029'

/-- Source: _MATCHER_FOR_ESCAPE_JS_REGEX, the class
[\x00\x08-\x0d\x22\x24\x26-\/\x3a\x3c-\x3f\x5b-\x5e\x7b-\x7d\x85<u2028><u2029>]. -/
def matcherForEscapeJsRegex (c : Char) : Bool :=
  c == '\x00' || ('\x08' ≤ c && c ≤ '\x0d') || c == '\x22' || c == '\x24' ||
  ('\x26' ≤ c && c ≤ '\x2f') || c == '\x3a' || ('\x3c' ≤ c && c ≤ '\x3f') ||
  ('\x5b' ≤ c && c ≤ '\x5e') || ('\x7b' ≤ c && c ≤ '\x7d') || c == '\x85' ||
  c == '\u2028' || c == '\u2029'

/-- Source: _MATCHER_FOR_ESCAPE_CSS_STRING, the class
[\x00\x08-\x0d\x22\x26-\x2a\/\x3a-\x3e@\\\x7b\x7d\x85\xa0<u2028><u2029>]. -/
def matcherForEscapeCssString (c : Char) : Bool :=
  c == '\x00' || ('\x08' ≤ c && c ≤ '\x0d') || c == '\x22' || ('\x26' ≤ c && c ≤ '\x2a') ||
  c == '/' || ('\x3a' ≤ c && c ≤ '\x3e') || c == '@' || c == '\\' || c == '\x7b' ||
  c == '\x7d' || c == '\x85' || c == '\xa0' || c == '\u2028' || c == '\u2029'

/-- Source: _MATCHER_FOR_NORMALIZE_URI__AND__FILTER_NORMALIZE_URI__AND__FILTER_NORMALIZE_MEDIA_URI, the class
[\x00- \x22\x27-\x29\x3c\x3e\\\x7b\x7d\x7f\x85\xa0<u2028><u2029>！＃＄＆-，／：；＝？＠［］]. -/
def matcherForNormalizeUri (c : Char) : Bool :=
  c ≤ ' ' || c == '\x22' || ('\x27' ≤ c && c ≤ '\x29') || c == '\x3c' || c == '\x3e' ||
  c == '\\' || c == '\x7b' || c == '\x7d' || c == '\x7f' || c == '\x85' || c == '\xa0' ||
  c == '\u2028' || c == '\u2029' || c == '\uff01' || c == '\uff03' || c == '\uff04' ||
  ('\uff06' ≤ c && c ≤ '\uff0c') || c == '\uff0f' || c == '\uff1a' || c == '\uff1b' ||
  c == '\uff1d' || c == '\uff1f' || c == '\uff20' || c == '\uff3b' || c == '\uff3d'

/-! ## Single-pass character substitution

The Python helpers run matcher.sub(replacer, value) where the matcher is a
single-character class and the replacer looks the matched character up in
the escape map, so the substitution is an independent per-character
replacement.  The replacer raises KeyError on a character outside the map;
that situation never arises because every matcher class is contained in
the domain of its map (proved below for the escape contexts), so the
identity default of lookupEscape is never exercised. -/

/-- Dict lookup of the replacer functions; the default branch models the
(unreachable) KeyError case as the identity. -/
def lookupEscape (table : List (Char × String)) (c : Char) : String :=
  match table.find? (fun e => e.1 == c) with
  | some e => e.2
  | none => String.singleton c

/-- re.sub with a single-character-class pattern: replace every character
matched by the class with its replacement. -/
def subChars (matcher : Char → Bool) (table : List (Char × String)) (s : String) : String :=
  String.join (s.toList.map (fun c => if matcher c then lookupEscape table c else String.singleton c))

/-- Source: escape_html_helper (generated_sanitize.py, lines 236-239). -/
def escape_html_helper (value : String) : String :=
  subChars matcherForEscapeHtml escapeMapForEscapeHtml value

/-- Source: escape_html_nospace_helper (lines 248-251). -/
def escape_html_nospace_helper (value : String) : String :=
  subChars matcherForEscapeHtmlNospace escapeMapForEscapeHtml value

/-- Source: escape_js_string_helper (lines 260-263). -/
def escape_js_string_helper (value : String) : String :=
  subChars matcherForEscapeJsString escapeMapForEscapeJs value

/-- Source: escape_js_regex_helper (lines 266-269). -/
def escape_js_regex_helper (value : String) : String :=
  subChars matcherForEscapeJsRegex escapeMapForEscapeJs value

/-- Source: escape_css_string_helper (lines 272-275). -/
def escape_css_string_helper (value : String) : String :=
  subChars matcherForEscapeCssString escapeMapForEscapeCssString value

/-- Source: normalize_uri_helper (lines 286-289). -/
def normalize_uri_helper (value : String) : String :=
  subChars matcherForNormalizeUri escapeMapForNormalizeUri value


/-! ## Nondeterministic regex matching combinators

The filter regexes of generated_sanitize.py are anchored whitelist
patterns.  Each is transcribed node for node into the following
combinator language.  A matcher takes the input suffix and returns every
suffix that can remain after the construct has matched; a regex matches
at position 0 exactly when the returned list is nonempty.  Greedy versus
lazy repetition is irrelevant for the match-exists question, so
repetition is modelled as the full nondeterministic union.  The star
combinator only iterates on strictly shrinking suffixes, which matches
the Python re behaviour of never repeating an empty submatch and makes
the fuel bound below exact. -/

def Nd : Type := List Char → List (List Char)

/-- Literal string node. -/
def litS (lit : String) : Nd := fun s =>
  if lit.toList.isPrefixOf s then [s.drop lit.toList.length] else []

/-- Single-character class node. -/
def clsP (p : Char → Bool) : Nd := fun s =>
  match s with
  | [] => []
  | c :: r => if p c then [r] else []

/-- Concatenation node. -/
def seqP (f g : Nd) : Nd := fun s => (f s).flatMap g

/-- Alternation node. -/
def altP (f g : Nd) : Nd := fun s => f s ++ g s

/-- The ? node. -/
def optP (f : Nd) : Nd := fun s => s :: f s

/-- Negative lookahead node. -/
def negLook (f : Nd) : Nd := fun s => if (f s).isEmpty then [s] else []

/-- The \Z anchor. -/
def endAnchor : Nd := fun s => if s.isEmpty then [s] else []

/-- The $ anchor without re.MULTILINE: end of input or just before a
final newline. -/
def dollarAnchor : Nd := fun s => if s.isEmpty || s == ['\n'] then [s] else []

/-- Star iteration with explicit fuel; each iteration must consume at
least one character, so an initial fuel equal to the suffix length can
never be exhausted early. -/
def starFuel (f : Nd) : Nat → Nd
  | 0 => fun s => [s]
  | n + 1 => fun s =>
      s :: ((f s).filter (fun r => r.length < s.length)).flatMap (starFuel f n)

/-- The * node. -/
def starP (f : Nd) : Nd := fun s => starFuel f s.length s

/-- The + node. -/
def plusP (f : Nd) : Nd := seqP f (starP f)

/-- The {1,4} node. -/
def rep1to4 (f : Nd) : Nd := seqP f (optP (seqP f (optP (seqP f (optP f)))))

/-- Does the regex match at position 0 (re.search with a ^-anchored
pattern and no re.MULTILINE is a match at position 0)? -/
def ndSearch (nd : Nd) (s : String) : Bool := !(nd s.toList).isEmpty

/-- Per-character simple lowercase mapping, used to model re.IGNORECASE;
the filter patterns only contain ASCII letters, for which Char.toLower
is the simple Unicode lowercase map the re module applies. -/
def pyLower (s : String) : String := ⟨s.toList.map Char.toLower⟩

/-- Python str.isspace / unicode re \s character set. -/
def pyIsSpace (c : Char) : Bool :=
  (0x09 ≤ c.toNat && c.toNat ≤ 0x0d) || (0x1c ≤ c.toNat && c.toNat ≤ 0x1f) || c == ' ' ||
  c == '\x85' || c == '\xa0' || c == '\u1680' || (0x2000 ≤ c.toNat && c.toNat ≤ 0x200a) ||
  c == '\u2028' || c == '\u2029' || c == '\u202f' || c == '\u205f' || c == '\u3000'

/-! ## Filter whitelist regexes (generated_sanitize.py, lines 216-234)

All patterns except the CSP-nonce one carry re.IGNORECASE; their literal
letters are written lowercase here and the helpers run them on the
lowercased copy of the input. -/

/-- The class [_a-z0-9-] of _FILTER_FOR_FILTER_CSS_VALUE. -/
def cssIdentChar (c : Char) : Bool :=
  c == '_' || ('a' ≤ c && c ≤ 'z') || ('0' ≤ c && c ≤ '9') || c == '-'

/-- The class [- \t,+.!#%_0-9a-zA-Z] of _FILTER_FOR_FILTER_CSS_VALUE
(lowercased). -/
def cssArgChar (c : Char) : Bool :=
  c == '-' || c == ' ' || c == '\t' || c == ',' || c == '+' || c == '.' || c == '!' ||
  c == '#' || c == '%' || c == '_' || ('0' ≤ c && c ≤ '9') || ('a' ≤ c && c ≤ 'z')

def asciiDigit (c : Char) : Bool := '0' ≤ c && c ≤ '9'

def asciiLowerAlpha (c : Char) : Bool := 'a' ≤ c && c ≤ 'z'

/-- The allowed CSS function-name alternation of _FILTER_FOR_FILTER_CSS_VALUE. -/
def cssFuncName : Nd :=
  altP (litS "calc") (altP (litS "cubic-bezier") (altP (litS "drop-shadow")
    (altP (litS "hsl") (altP (litS "hsla") (altP (litS "hue-rotate")
    (altP (litS "invert") (altP (litS "linear-gradient") (altP (litS "max")
    (altP (litS "min") (altP (litS "rgb") (altP (litS "rgba")
    (altP (litS "rotate") (altP (litS "rotatez") (altP (litS "translate")
    (altP (litS "translate3d") (altP (litS "translatex")
    (altP (litS "translatey") (litS "var"))))))))))))))))))

/-- (?:\/(?![\/\*]))|(?:\*(?!\/)), a slash or star not opening a comment. -/
def cssSlashStar : Nd :=
  altP (seqP (litS "/") (negLook (clsP (fun c => c == '/' || c == '*'))))
       (seqP (litS "*") (negLook (litS "/")))

/-- (?:SLASHSTAR?[- \t,+.!#%_0-9a-zA-Z]+), one argument chunk. -/
def cssArgChunk : Nd := seqP (optP cssSlashStar) (plusP (clsP cssArgChar))

/-- FUNC\(ARGCHUNK*\), the nested (one level deep) inner call. -/
def cssInnerCall : Nd :=
  seqP cssFuncName (seqP (litS "(") (seqP (starP cssArgChunk) (litS ")")))

/-- (?:ARGCHUNK*|INNERCALL)+, the body of a top-level call. -/
def cssCallBody : Nd := plusP (altP (starP cssArgChunk) cssInnerCall)

/-- FUNC\(BODY\), a top-level function call. -/
def cssCall : Nd := seqP cssFuncName (seqP (litS "(") (seqP cssCallBody (litS ")")))

/-- [.#]?-?(?:[_a-z0-9-]+)(?:-[_a-z0-9-]+)*-?, the identifier alternative. -/
def cssIdentAlt : Nd :=
  seqP (optP (clsP (fun c => c == '.' || c == '#')))
    (seqP (optP (litS "-"))
      (seqP (plusP (clsP cssIdentChar))
        (seqP (starP (seqP (litS "-") (plusP (clsP cssIdentChar))))
          (optP (litS "-")))))

/-- [-+]?(?:[0-9]+(?:\.[0-9]*)?|\.[0-9]+)(?:e-?[0-9]+)?(?:[a-z]{1,4}|%)?,
the numeric-literal alternative. -/
def cssNumberAlt : Nd :=
  seqP (optP (clsP (fun c => c == '-' || c == '+')))
    (seqP (altP (seqP (plusP (clsP asciiDigit)) (optP (seqP (litS ".") (starP (clsP asciiDigit)))))
                (seqP (litS ".") (plusP (clsP asciiDigit))))
      (seqP (optP (seqP (litS "e") (seqP (optP (litS "-")) (plusP (clsP asciiDigit)))))
        (optP (altP (rep1to4 (clsP asciiLowerAlpha)) (litS "%")))))

/-- The whole value alternation of _FILTER_FOR_FILTER_CSS_VALUE. -/
def cssAlt : Nd :=
  altP cssIdentAlt (altP cssCall (altP cssNumberAlt (altP cssSlashStar (litS "!important"))))

/-- (?:\s*[, ]\s*|\Z), the separator after each value. -/
def cssSep : Nd :=
  altP (seqP (starP (clsP pyIsSpace))
             (seqP (clsP (fun c => c == ',' || c == ' ')) (starP (clsP pyIsSpace))))
       endAnchor

/-- Source: _FILTER_FOR_FILTER_CSS_VALUE (line 216),
^(?!-*(?:expression|(?:moz-)?binding))(?:ALT SEP)*\Z. -/
def cssValueFilterNd : Nd :=
  seqP (negLook (seqP (starP (litS "-"))
                      (altP (litS "expression") (seqP (optP (litS "moz-")) (litS "binding")))))
    (seqP (starP (seqP cssAlt cssSep)) endAnchor)

/-- The scheme class [a-z0-9+.-] of _FILTER_FOR_FILTER_NORMALIZE_URI. -/
def uriSchemeChar (c : Char) : Bool :=
  ('a' ≤ c && c ≤ 'z') || ('0' ≤ c && c ≤ '9') || c == '+' || c == '.' || c == '-'

/-- The complement class [^&:/?#]. -/
def uriRelativeChar (c : Char) : Bool :=
  !(c == '&' || c == ':' || c == '/' || c == '?' || c == '#')

/-- [^&:/?#]*(?:[/?#]|\Z), the scheme-free alternative. -/
def uriRelativeAlt : Nd :=
  seqP (starP (clsP uriRelativeChar))
       (altP (clsP (fun c => c == '/' || c == '?' || c == '#')) endAnchor)

/-- Source: _FILTER_FOR_FILTER_NORMALIZE_URI (line 218),
^(?!javascript:)(?:[a-z0-9+.-]+:|[^&:/?#]*(?:[/?#]|\Z)). -/
def normalizeUriFilterNd : Nd :=
  seqP (negLook (litS "javascript:"))
    (altP (seqP (plusP (clsP uriSchemeChar)) (litS ":")) uriRelativeAlt)

/-- The base64 class [a-z0-9+/]. -/
def base64Char (c : Char) : Bool :=
  ('a' ≤ c && c ≤ 'z') || ('0' ≤ c && c ≤ '9') || c == '+' || c == '/'

/-- The media-type class [a-z0-9+-]. -/
def mediaTypeChar (c : Char) : Bool :=
  ('a' ≤ c && c ≤ 'z') || ('0' ≤ c && c ≤ '9') || c == '+' || c == '-'

/-- ^data:image/[a-z0-9+-]+;base64,[a-z0-9+/]+=*\Z, the data-URI
alternative of _FILTER_FOR_FILTER_NORMALIZE_MEDIA_URI. -/
def dataImageBase64Nd : Nd :=
  seqP (litS "data:image/")
    (seqP (plusP (clsP mediaTypeChar))
      (seqP (litS ";base64,") (seqP (plusP (clsP base64Char)) (seqP (starP (litS "=")) endAnchor))))

/-- Source: _FILTER_FOR_FILTER_NORMALIZE_MEDIA_URI (line 220). -/
def normalizeMediaUriFilterNd : Nd :=
  altP uriRelativeAlt
    (altP (seqP (litS "http") (seqP (optP (litS "s")) (litS ":")))
      (altP (litS "ftp:") (altP dataImageBase64Nd (litS "blob:"))))

/-- Source: _FILTER_FOR_FILTER_IMAGE_DATA_URI (line 222),
^data:image/(?:bmp|gif|jpe?g|png|tiff|webp|x-icon);base64,[a-z0-9+/]+=*\Z. -/
def imageDataUriFilterNd : Nd :=
  seqP (litS "data:image/")
    (seqP (altP (litS "bmp") (altP (litS "gif")
            (altP (seqP (litS "jp") (seqP (optP (litS "e")) (litS "g")))
              (altP (litS "png") (altP (litS "tiff") (altP (litS "webp") (litS "x-icon")))))))
      (seqP (litS ";base64,")
        (seqP (plusP (clsP base64Char)) (seqP (starP (litS "=")) endAnchor))))

/-- The shared class [0-9a-z;=\-+._!~*< >' /():&$#?@,] of the sip/sms/tel
filters (apostrophe and space are members; < > here only delimit this
comment). -/
def telUriChar (c : Char) : Bool :=
  ('0' ≤ c && c ≤ '9') || ('a' ≤ c && c ≤ 'z') || c == ';' || c == '=' || c == '-' ||
  c == '+' || c == '.' || c == '_' || c == '!' || c == '~' || c == '*' || c == '\'' ||
  c == ' ' || c == '/' || c == '(' || c == ')' || c == ':' || c == '&' || c == '$' ||
  c == '#' || c == '?' || c == '@' || c == ','

/-- Source: _FILTER_FOR_FILTER_SIP_URI (line 224). -/
def sipUriFilterNd : Nd := seqP (litS "sip:") (seqP (plusP (clsP telUriChar)) endAnchor)

/-- Source: _FILTER_FOR_FILTER_SMS_URI (line 226). -/
def smsUriFilterNd : Nd := seqP (litS "sms:") (seqP (plusP (clsP telUriChar)) endAnchor)

/-- Source: _FILTER_FOR_FILTER_TEL_URI (line 228),
^tel:(?:[class]|%23|%2C|%3B)+\Z. -/
def telUriFilterNd : Nd :=
  seqP (litS "tel:")
    (seqP (plusP (altP (clsP telUriChar) (altP (litS "%23") (altP (litS "%2c") (litS "%3b")))))
      endAnchor)

/-- The name class [a-z0-9_$:-] of the html attribute and element filters. -/
def htmlNameChar (c : Char) : Bool :=
  ('a' ≤ c && c ≤ 'z') || ('0' ≤ c && c ≤ '9') || c == '_' || c == '$' || c == ':' || c == '-'

/-- The blocked attribute-name alternation of _FILTER_FOR_FILTER_HTML_ATTRIBUTES. -/
def htmlAttrBlockedWord : Nd :=
  altP (litS "action") (altP (litS "archive") (altP (litS "background")
    (altP (litS "cite") (altP (litS "classid") (altP (litS "codebase")
    (altP (litS "content") (altP (litS "data") (altP (litS "dsync")
    (altP (litS "href") (altP (litS "http-equiv") (altP (litS "longdesc")
    (altP (litS "style") (litS "usemap")))))))))))))

/-- Source: _FILTER_FOR_FILTER_HTML_ATTRIBUTES (line 230),
^(?!on|src|(?:WORDS)\s*$)(?:[a-z0-9_$:-]*)\Z. -/
def htmlAttributesFilterNd : Nd :=
  seqP (negLook (altP (litS "on") (altP (litS "src")
          (seqP htmlAttrBlockedWord (seqP (starP (clsP pyIsSpace)) dollarAnchor)))))
    (seqP (starP (clsP htmlNameChar)) endAnchor)

/-- The blocked element-name alternation of _FILTER_FOR_FILTER_HTML_ELEMENT_NAME. -/
def htmlElementBlockedWord : Nd :=
  altP (litS "base") (altP (litS "iframe") (altP (litS "link")
    (altP (litS "noframes") (altP (litS "noscript") (altP (litS "object")
    (altP (litS "script") (altP (litS "style") (altP (litS "textarea")
    (altP (litS "title") (litS "xmp"))))))))))

/-- Source: _FILTER_FOR_FILTER_HTML_ELEMENT_NAME (line 232),
^(?!WORDS)[a-z0-9_$:-]*\Z. -/
def htmlElementNameFilterNd : Nd :=
  seqP (negLook htmlElementBlockedWord) (seqP (starP (clsP htmlNameChar)) endAnchor)

/-- The class [a-zA-Z0-9+/_-] of _FILTER_FOR_FILTER_CSP_NONCE_VALUE
(this filter is case sensitive). -/
def cspNonceChar (c : Char) : Bool :=
  ('a' ≤ c && c ≤ 'z') || ('A' ≤ c && c ≤ 'Z') || ('0' ≤ c && c ≤ '9') ||
  c == '+' || c == '/' || c == '_' || c == '-'

/-- Source: _FILTER_FOR_FILTER_CSP_NONCE_VALUE (line 234),
^[a-zA-Z0-9+/_-]+={0,2}$. -/
def cspNonceFilterNd : Nd :=
  seqP (plusP (clsP cspNonceChar)) (seqP (optP (seqP (litS "=") (optP (litS "=")))) dollarAnchor)

/-! ## Filter helpers (generated_sanitize.py, lines 278-363)

Each helper tests its whitelist regex (on the lowercased copy of the
input for the case-insensitive patterns) and returns the rejection
sentinel on failure; filter_normalize_uri_helper and
filter_normalize_media_uri_helper additionally run the URI
percent-escaping substitution on the accepted value. -/

/-- Source: filter_css_value_helper (lines 278-283). -/
def filter_css_value_helper (value : String) : String :=
  if ndSearch cssValueFilterNd (pyLower value) then value else "zSoyz"

/-- Source: filter_normalize_uri_helper (lines 292-298). -/
def filter_normalize_uri_helper (value : String) : String :=
  if ndSearch normalizeUriFilterNd (pyLower value) then normalize_uri_helper value
  else "about:invalid#zSoyz"

/-- Source: filter_normalize_media_uri_helper (lines 301-307). -/
def filter_normalize_media_uri_helper (value : String) : String :=
  if ndSearch normalizeMediaUriFilterNd (pyLower value) then normalize_uri_helper value
  else "about:invalid#zSoyz"

/-- Source: filter_image_data_uri_helper (lines 310-315). -/
def filter_image_data_uri_helper (value : String) : String :=
  if ndSearch imageDataUriFilterNd (pyLower value) then value
  else "data:image/gif;base64,zSoyz"

/-- Source: filter_sip_uri_helper (lines 318-323). -/
def filter_sip_uri_helper (value : String) : String :=
  if ndSearch sipUriFilterNd (pyLower value) then value else "about:invalid#zSoyz"

/-- Source: filter_sms_uri_helper (lines 326-331). -/
def filter_sms_uri_helper (value : String) : String :=
  if ndSearch smsUriFilterNd (pyLower value) then value else "about:invalid#zSoyz"

/-- Source: filter_tel_uri_helper (lines 334-339). -/
def filter_tel_uri_helper (value : String) : String :=
  if ndSearch telUriFilterNd (pyLower value) then value else "about:invalid#zSoyz"

/-- Source: filter_html_attributes_helper (lines 342-347). -/
def filter_html_attributes_helper (value : String) : String :=
  if ndSearch htmlAttributesFilterNd (pyLower value) then value else "zSoyz"

/-- Source: filter_html_element_name_helper (lines 350-355). -/
def filter_html_element_name_helper (value : String) : String :=
  if ndSearch htmlElementNameFilterNd (pyLower value) then value else "zSoyz"

/-- Source: filter_csp_nonce_value_helper (lines 358-363). -/
def filter_csp_nonce_value_helper (value : String) : String :=
  if ndSearch cspNonceFilterNd value then value else "zSoyz"


/-! ## The coercion value universe (runtime.py)

The Soy Python runtime manipulates None, bool, int, float and str values.
Python floats are modelled as exact rationals: no verified claim observes
IEEE rounding.  Option models a raised-and-caught exception, Except a
raised error with its message. -/

inductive SoyVal where
  | none : SoyVal
  | bool (b : Bool) : SoyVal
  | int (n : Int) : SoyVal
  | float (q : ℚ) : SoyVal
  | str (s : String) : SoyVal
deriving DecidableEq

def boolToInt (b : Bool) : Int := if b then 1 else 0

def isStringVal : SoyVal → Bool
  | .str _ => true
  | _ => false

def isNoneVal : SoyVal → Bool
  | .none => true
  | _ => false

/-- str() of a Python float; exact for floats of integral value, the only
floats the verified claims mention.  The shortest-round-trip decimal
rendering CPython uses for other doubles is abstracted by a num/den
rendering (never evaluated in this development). -/
def pyFloatStr (q : ℚ) : String :=
  if q.den == 1 then toString q.num ++ ".0"
  else toString q.num ++ "/" ++ toString q.den

/-- Python str() of a modelled value. -/
def pyStr : SoyVal → String
  | .none => "None"
  | .bool b => if b then "True" else "False"
  | .int n => toString n
  | .float q => pyFloatStr q
  | .str s => s

/-- Source: _convert_to_js_string (runtime.py, lines 681-696):
None becomes "null", booleans str(value).lower(), everything else
str(value). -/
def _convert_to_js_string : SoyVal → String
  | .none => "null"
  | .bool b => if b then "true" else "false"
  | .int n => toString n
  | .float q => pyFloatStr q
  | .str s => s

/-- The Python + operator on the modelled universe; Option.none models a
TypeError.  bool operands act as their integer value, float additions are
exact rationals. -/
def pyAdd : SoyVal → SoyVal → Option SoyVal
  | .int a, .int b => some (.int (a + b))
  | .int a, .bool b => some (.int (a + boolToInt b))
  | .bool a, .int b => some (.int (boolToInt a + b))
  | .bool a, .bool b => some (.int (boolToInt a + boolToInt b))
  | .float a, .float b => some (.float (a + b))
  | .float a, .int b => some (.float (a + (b : ℚ)))
  | .int a, .float b => some (.float ((a : ℚ) + b))
  | .float a, .bool b => some (.float (a + (boolToInt b : ℚ)))
  | .bool a, .float b => some (.float ((boolToInt a : ℚ) + b))
  | .str a, .str b => some (.str (a ++ b))
  | _, _ => Option.none

/-- One iteration of the for-loop of type_safe_add (runtime.py, lines
390-405).  The accumulator carries (result, is_string).  As in the
source, in string mode the operand is first rebound to its
_convert_to_js_string form; on a TypeError a None operand is re-added as
False and any other operand switches the fold to string mode.
Option.none models the uncaught TypeError of result += False when the
running result is itself None. -/
def addStep (acc : SoyVal × Bool) (arg : SoyVal) : Option (SoyVal × Bool) :=
  let result := acc.1
  let is_string := acc.2
  let arg1 := if is_string then SoyVal.str (_convert_to_js_string arg) else arg
  match pyAdd result arg1 with
  | some r => some (r, is_string)
  | Option.none =>
    match arg1 with
    | .none =>
      match pyAdd result (.bool false) with
      | some r => some (r, is_string)
      | Option.none => Option.none
    | _ => some (.str (_convert_to_js_string result ++ _convert_to_js_string arg1), true)

/-- Source: type_safe_add (runtime.py, lines 354-406). -/
def type_safe_add (args : List SoyVal) : Option SoyVal :=
  match args with
  | [] => some .none
  | [a] => some a
  | a :: rest => (rest.foldlM addStep (a, isStringVal a)).map (fun acc => acc.1)

/-- Digit-run value, most significant first. -/
def digitsVal (l : List Char) : Nat := l.foldl (fun a c => a * 10 + (c.toNat - '0'.toNat)) 0

/-- The rational (ipart.fpart) * 10 ^ e. -/
def floatVal (ip fp : List Char) (e : Int) : ℚ :=
  let mant : Int := (digitsVal ip * 10 ^ fp.length + digitsVal fp : Nat)
  let net : Int := e - fp.length
  if 0 ≤ net then mkRat (mant * 10 ^ net.toNat) 1 else mkRat mant (10 ^ (-net).toNat)

/-- The optional exponent suffix of a float literal, applied to the parsed
mantissa digits. -/
def parseExpPart (ip fp rest : List Char) : Option ℚ :=
  match rest with
  | [] => some (floatVal ip fp 0)
  | e :: r =>
    if e == 'e' || e == 'E' then
      let sgn : Int := match r with | '-' :: _ => -1 | _ => 1
      let r2 := match r with | '+' :: t => t | '-' :: t => t | t => t
      let ed := r2.takeWhile Char.isDigit
      if ed.isEmpty || !(r2.drop ed.length).isEmpty then Option.none
      else some (floatVal ip fp (sgn * (digitsVal ed : Int)))
    else Option.none

/-- An unsigned float literal: digits, optionally a point and more digits
(at least one digit in total), optionally an exponent. -/
def parseUnsignedFloat (l : List Char) : Option ℚ :=
  let ip := l.takeWhile Char.isDigit
  let rest1 := l.drop ip.length
  match rest1 with
  | '.' :: r2 =>
    let fp := r2.takeWhile Char.isDigit
    let rest2 := r2.drop fp.length
    if ip.isEmpty && fp.isEmpty then Option.none else parseExpPart ip fp rest2
  | _ => if ip.isEmpty then Option.none else parseExpPart ip [] rest1

/-- Python float(str): surrounding whitespace is allowed, then an optional
sign and a decimal literal with optional exponent.  Option.none models
ValueError.  The inf/nan words, digit-group underscores and non-ASCII
decimal digits CPython additionally accepts are outside every verified
claim and are modelled as parse failures. -/
def parsePyFloat (s : String) : Option ℚ :=
  let l := ((s.toList.dropWhile pyIsSpace).reverse.dropWhile pyIsSpace).reverse
  match l with
  | '+' :: r => parseUnsignedFloat r
  | '-' :: r => (parseUnsignedFloat r).map (fun q => -q)
  | r => parseUnsignedFloat r

/-- type(first) == type(second) in Python terms (bool is its own type,
distinct from int). -/
def sameType : SoyVal → SoyVal → Bool
  | .none, .none => true
  | .bool _, .bool _ => true
  | .int _, .int _ => true
  | .float _, .float _ => true
  | .str _, .str _ => true
  | _, _ => false

/-- The Python == operator on the modelled universe: None equals only
None, numeric values (bool included) compare by value, strings by
content, every other cross-type pair is unequal. -/
def pyEq : SoyVal → SoyVal → Bool
  | .none, .none => true
  | .bool a, .bool b => a == b
  | .int a, .int b => a == b
  | .float a, .float b => a == b
  | .str a, .str b => a == b
  | .bool a, .int b => boolToInt a == b
  | .int a, .bool b => a == boolToInt b
  | .bool a, .float b => (boolToInt a : ℚ) == b
  | .float a, .bool b => a == (boolToInt b : ℚ)
  | .int a, .float b => (a : ℚ) == b
  | .float a, .int b => a == (b : ℚ)
  | _, _ => false

def isNumericNotBool : SoyVal → Bool
  | .int _ => true
  | .float _ => true
  | _ => false

/-- The numeric value of an int or float (0 on the other constructors,
never consulted there). -/
def numValQ : SoyVal → ℚ
  | .int n => (n : ℚ)
  | .float q => q
  | _ => 0

/-- float(x) inside type_safe_eq; Option.none models ValueError on an
unparsable string (None cannot reach this conversion because the
None-or-same-type branch returns first). -/
def pyFloatOf : SoyVal → Option ℚ
  | .bool b => some ((boolToInt b : Int) : ℚ)
  | .int n => some (n : ℚ)
  | .float q => some q
  | .str s => parsePyFloat s
  | .none => Option.none

/-- Source: type_safe_eq (runtime.py, lines 455-490).  A ValueError from
a float() coercion falls through to the plain == comparison, exactly as
the except ValueError: pass of the source does. -/
def type_safe_eq (first second : SoyVal) : Bool :=
  if isNoneVal first || isNoneVal second || sameType first second then pyEq first second
  else if isNumericNotBool first then
    match pyFloatOf second with
    | some q => numValQ first == q
    | Option.none => pyEq first second
  else if isNumericNotBool second then
    match pyFloatOf first with
    | some q => q == numValQ second
    | Option.none => pyEq first second
  else
    match first, second with
    | .str s, _ => s == pyStr second
    | _, .str t => pyStr first == t
    | _, _ => pyEq first second

/-! ## Delegate registry (runtime.py)

The process-wide _DELEGATE_REGISTRY dict is modelled as an explicit map
value threaded through the operations; a raised RuntimeError is modelled
as Except.error carrying the message. -/

/-- A registered template implementation (only ever invoked through this
one data-to-output signature). -/
def TemplateFn : Type := String → String

/-- One registry value: the (priority, fn, fn_name) tuple. -/
structure DelegateEntry where
  priority : Int
  fn : TemplateFn
  fn_name : String

/-- The _DELEGATE_REGISTRY map. -/
def DelegateRegistry : Type := String → Option DelegateEntry

/-- Source: _gen_delegate_id (runtime.py, lines 729-730). -/
def _gen_delegate_id (template_id : String) (variant : String := "") : String :=
  "key_" ++ template_id ++ ":" ++ variant

/-- Dict assignment _DELEGATE_REGISTRY[map_key] = entry. -/
def registryInsert (reg : DelegateRegistry) (key : String) (e : DelegateEntry) :
    DelegateRegistry :=
  fun k => if k == key then some e else reg k

/-- Source: register_delegate_fn (runtime.py, lines 325-351). -/
def register_delegate_fn (reg : DelegateRegistry) (template_id variant : String)
    (priority : Int) (fn : TemplateFn) (fn_name : String) : Except String DelegateRegistry :=
  let map_key := _gen_delegate_id template_id variant
  match reg map_key with
  | Option.none => .ok (registryInsert reg map_key ⟨priority, fn, fn_name⟩)
  | some curr =>
    if priority > curr.priority then
      .ok (registryInsert reg map_key ⟨priority, fn, fn_name⟩)
    else if priority == curr.priority && fn_name != curr.fn_name then
      .error ("Encountered two active delegates with the same priority (" ++
        template_id ++ ":" ++ variant ++ ":" ++ toString priority ++ ").")
    else .ok reg

/-- Source: _empty_template_function (runtime.py, lines 657-658). -/
def _empty_template_function : TemplateFn := fun _ => ""

/-- Source: get_delegate_fn (runtime.py, lines 133-170). -/
def get_delegate_fn (reg : DelegateRegistry) (template_id variant : String)
    (allow_empty_default : Bool) : Except String TemplateFn :=
  let fn0 : Option TemplateFn :=
    (reg (_gen_delegate_id template_id variant)).map DelegateEntry.fn
  let fn : Option TemplateFn :=
    match fn0 with
    | Option.none =>
      if variant != "" then (reg (_gen_delegate_id template_id)).map DelegateEntry.fn
      else Option.none
    | some f => some f
  match fn with
  | some f => .ok f
  | Option.none =>
    if allow_empty_default then .ok _empty_template_function
    else .error ("Found no active impl for delegate call to \"" ++ template_id ++
      (if variant != "" then ":" ++ variant else "") ++
      "\" (and delcall does not set allowemptydefault=\"true\").")


/-! ## Bidi direction estimation (bidi.py) -/

/-- Modelled from the spec: the sanitize.DIR directionality enum, used by
bidi.py via sanitize.DIR (sanitize.py is not among the provided source
files).  Spec section 3: Directionality is the enum {LTR, RTL, NEUTRAL},
represented numerically as {+1, -1, 0}. -/
inductive DIR where
  | LTR : DIR
  | RTL : DIR
  | NEUTRAL : DIR
deriving DecidableEq

/-- Source: _LTR_CHARS (bidi.py, lines 67-69), the strong-LTR ranges
A-Za-z, U+00C0-U+00D6, U+00D8-U+00F6, U+00F8-U+02B8, U+0300-U+0590,
U+0800-U+1FFF, U+200E, U+2C00-U+FB1C, U+FE00-U+FE6F, U+FEFD-U+FFFF. -/
def isLtrChar (c : Char) : Bool :=
  ('A' ≤ c && c ≤ 'Z') || ('a' ≤ c && c ≤ 'z') ||
  (0xC0 ≤ c.toNat && c.toNat ≤ 0xD6) || (0xD8 ≤ c.toNat && c.toNat ≤ 0xF6) ||
  (0xF8 ≤ c.toNat && c.toNat ≤ 0x2B8) || (0x300 ≤ c.toNat && c.toNat ≤ 0x590) ||
  (0x800 ≤ c.toNat && c.toNat ≤ 0x1FFF) || c.toNat == 0x200E ||
  (0x2C00 ≤ c.toNat && c.toNat ≤ 0xFB1C) || (0xFE00 ≤ c.toNat && c.toNat ≤ 0xFE6F) ||
  (0xFEFD ≤ c.toNat && c.toNat ≤ 0xFFFF)

/-- Source: _RTL_CHARS (bidi.py, line 70), the strong-RTL ranges
U+0591-U+07FF, U+200F, U+FB1D-U+FDFF, U+FE70-U+FEFC. -/
def isRtlChar (c : Char) : Bool :=
  (0x591 ≤ c.toNat && c.toNat ≤ 0x7FF) || c.toNat == 0x200F ||
  (0xFB1D ≤ c.toNat && c.toNat ≤ 0xFDFF) || (0xFE70 ≤ c.toNat && c.toNat ≤ 0xFEFC)

/-- Python unicode \d of _HAS_NUMERALS_RE (bidi.py, line 45): the
decimal-digit (Nd) ranges of the Basic Multilingual Plane
(supplementary-plane digits, which no claim exercises, are omitted). -/
def pyIsDigit (c : Char) : Bool :=
  let n := c.toNat
  (0x30 ≤ n && n ≤ 0x39) || (0x660 ≤ n && n ≤ 0x669) || (0x6F0 ≤ n && n ≤ 0x6F9) ||
  (0x7C0 ≤ n && n ≤ 0x7C9) || (0x966 ≤ n && n ≤ 0x96F) || (0x9E6 ≤ n && n ≤ 0x9EF) ||
  (0xA66 ≤ n && n ≤ 0xA6F) || (0xAE6 ≤ n && n ≤ 0xAEF) || (0xB66 ≤ n && n ≤ 0xB6F) ||
  (0xBE6 ≤ n && n ≤ 0xBEF) || (0xC66 ≤ n && n ≤ 0xC6F) || (0xCE6 ≤ n && n ≤ 0xCEF) ||
  (0xD66 ≤ n && n ≤ 0xD6F) || (0xE50 ≤ n && n ≤ 0xE59) || (0xED0 ≤ n && n ≤ 0xED9) ||
  (0xF20 ≤ n && n ≤ 0xF29) || (0x1040 ≤ n && n ≤ 0x1049) || (0x1090 ≤ n && n ≤ 0x1099) ||
  (0x17E0 ≤ n && n ≤ 0x17E9) || (0x1810 ≤ n && n ≤ 0x1819) || (0x1946 ≤ n && n ≤ 0x194F) ||
  (0x19D0 ≤ n && n ≤ 0x19D9) || (0x1A80 ≤ n && n ≤ 0x1A89) || (0x1A90 ≤ n && n ≤ 0x1A99) ||
  (0x1B50 ≤ n && n ≤ 0x1B59) || (0x1BB0 ≤ n && n ≤ 0x1BB9) || (0x1C40 ≤ n && n ≤ 0x1C49) ||
  (0x1C50 ≤ n && n ≤ 0x1C59) || (0xA620 ≤ n && n ≤ 0xA629) || (0xA8D0 ≤ n && n ≤ 0xA8D9) ||
  (0xA900 ≤ n && n ≤ 0xA909) || (0xA9D0 ≤ n && n ≤ 0xA9D9) || (0xA9F0 ≤ n && n ≤ 0xA9F9) ||
  (0xAA50 ≤ n && n ≤ 0xAA59) || (0xABF0 ≤ n && n ≤ 0xABF9) || (0xFF10 ≤ n && n ≤ 0xFF19)

/-- Source: _RTL_DIR_CHECK_RE (bidi.py, line 79), the search of the
pattern ^[^LTR]*[RTL]: it matches exactly when some RTL-range character
is preceded by no LTR-range character; since the LTR and RTL ranges are
disjoint this is: the first strong-directional character exists and is
RTL. -/
def rtl_dir_check : List Char → Bool
  | [] => false
  | c :: r => if isRtlChar c then true else if isLtrChar c then false else rtl_dir_check r

/-- Source: _IS_REQUIRED_LTR_RE (bidi.py, line 58), the search of
^http[s]?://.* (case sensitive). -/
def is_required_ltr (t : List Char) : Bool :=
  "http://".toList.isPrefixOf t || "https://".toList.isPrefixOf t

/-- Source: _LTR_CHARS_RE (bidi.py, line 74), search for any LTR-range
character. -/
def has_ltr_char (t : List Char) : Bool := t.any isLtrChar

/-- Source: _HAS_NUMERALS_RE (bidi.py, line 45), search for any decimal
digit. -/
def has_numerals (t : List Char) : Bool := t.any pyIsDigit

/-- Drop elements up to and including the first occurrence of target. -/
def dropThroughChar (target : Char) : List Char → Option (List Char)
  | [] => Option.none
  | c :: r => if c == target then some r else dropThroughChar target r

/-- Source: the _HTML_SKIP_RE substitution (bidi.py, lines 51, 500-501):
global left-to-right removal of every <[^>]*> and &[^;]+; match.  The
fuel equals the input length; every loop step consumes at least one
character, so the fuel is never exhausted. -/
def stripHtmlFuel : Nat → List Char → List Char
  | 0, l => l
  | _ + 1, [] => []
  | fuel + 1, c :: rest =>
    if c == '<' then
      match dropThroughChar '>' rest with
      | some r => stripHtmlFuel fuel r
      | Option.none => c :: stripHtmlFuel fuel rest
    else if c == '&' then
      match rest with
      | [] => [c]
      | r0 :: _ =>
        if r0 == ';' then c :: stripHtmlFuel fuel rest
        else
          match dropThroughChar ';' rest with
          | some r => stripHtmlFuel fuel r
          | Option.none => c :: stripHtmlFuel fuel rest
    else c :: stripHtmlFuel fuel rest

/-- Source: _strip_html_if_needed (bidi.py, lines 500-501). -/
def _strip_html_if_needed (value : String) (is_html : Bool) : List Char :=
  if is_html then stripHtmlFuel value.toList.length value.toList else value.toList

/-- Python str.split() with no separator: split on runs of whitespace and
drop empty tokens.  The accumulator holds the current token reversed. -/
def pySplitAux : List Char → List Char → List (List Char)
  | [], acc => if acc.isEmpty then [] else [acc.reverse]
  | c :: r, acc =>
    if pyIsSpace c then
      if acc.isEmpty then pySplitAux r [] else acc.reverse :: pySplitAux r []
    else pySplitAux r (c :: acc)

def pySplit (l : List Char) : List (List Char) := pySplitAux l []

/-- The classification a token receives in the if/elif chain of the loop
of _estimate_direction (bidi.py, lines 461-470). -/
inductive TokenClass where
  | rtlToken : TokenClass
  | requiredLtrToken : TokenClass
  | ltrToken : TokenClass
  | numeralToken : TokenClass
  | neutralToken : TokenClass
deriving DecidableEq

/-- The if/elif chain of _estimate_direction applied to one token. -/
def classify_token (t : List Char) : TokenClass :=
  if rtl_dir_check t then .rtlToken
  else if is_required_ltr t then .requiredLtrToken
  else if has_ltr_char t then .ltrToken
  else if has_numerals t then .numeralToken
  else .neutralToken

/-- The counters accumulated by the loop of _estimate_direction:
(rtl_count, total_count, has_weakly_ltr). -/
def count_tokens (tokens : List (List Char)) : Nat × Nat × Bool :=
  tokens.foldl
    (fun acc t =>
      match classify_token t with
      | .rtlToken => (acc.1 + 1, acc.2.1 + 1, acc.2.2)
      | .requiredLtrToken => (acc.1, acc.2.1, true)
      | .ltrToken => (acc.1, acc.2.1 + 1, acc.2.2)
      | .numeralToken => (acc.1, acc.2.1, true)
      | .neutralToken => acc)
    (0, 0, false)

/-- Source: _RTL_ESTIMATION_THRESHOLD = 0.40 (bidi.py, line 91), as the
exact rational. -/
def _RTL_ESTIMATION_THRESHOLD : ℚ := mkRat 40 100

/-- Source: _estimate_direction (bidi.py, lines 442-479).  The comparison
float(rtl_count) / total_count > 0.40 is modelled as the exact rational
comparison; IEEE division is correctly rounded and 2/5 is below the
double nearest to 0.40, so the two comparisons agree for every total
below 10^15 tokens. -/
def _estimate_direction (value : String) (is_html : Bool) : DIR :=
  let tokens := pySplit (_strip_html_if_needed value is_html)
  let counts := count_tokens tokens
  let rtl_count := counts.1
  let total_count := counts.2.1
  let has_weakly_ltr := counts.2.2
  if total_count == 0 && has_weakly_ltr then .LTR
  else if total_count == 0 then .NEUTRAL
  else if _RTL_ESTIMATION_THRESHOLD < mkRat rtl_count total_count then .RTL
  else .LTR


/-! ## Claim C1 -/

/-- Claim C1, counterexample: filter_normalize_uri_helper is not limited
to the two outcomes the claim allows.  The one-character input < passes
the whitelist (it is a scheme-free path), and the subsequent
percent-normalization pass returns %3C, which is neither the input nor
any of the three rejection sentinels. -/
theorem C1_counterexample :
    filter_normalize_uri_helper "<" = "%3C" ∧
    ("%3C" ≠ "<" ∧ "%3C" ≠ "zSoyz" ∧ "%3C" ≠ "about:invalid#zSoyz" ∧
      "%3C" ≠ "data:image/gif;base64,zSoyz") := by
  exact ⟨by decide, by decide, by decide, by decide, by decide⟩

/-- Claim C1, amended: for the eight plain filters the result is the
input unchanged or that context's fixed rejection sentinel; for the two
composite filters (filter_normalize_uri_helper and
filter_normalize_media_uri_helper) the result is the percent-normalized
input (normalize_uri_helper) or the URI rejection sentinel — in every
case there is no further outcome. -/
theorem C1_amended (s : String) :
    (filter_css_value_helper s = s ∨ filter_css_value_helper s = "zSoyz") ∧
    (filter_image_data_uri_helper s = s ∨
      filter_image_data_uri_helper s = "data:image/gif;base64,zSoyz") ∧
    (filter_sip_uri_helper s = s ∨ filter_sip_uri_helper s = "about:invalid#zSoyz") ∧
    (filter_sms_uri_helper s = s ∨ filter_sms_uri_helper s = "about:invalid#zSoyz") ∧
    (filter_tel_uri_helper s = s ∨ filter_tel_uri_helper s = "about:invalid#zSoyz") ∧
    (filter_html_attributes_helper s = s ∨ filter_html_attributes_helper s = "zSoyz") ∧
    (filter_html_element_name_helper s = s ∨ filter_html_element_name_helper s = "zSoyz") ∧
    (filter_csp_nonce_value_helper s = s ∨ filter_csp_nonce_value_helper s = "zSoyz") ∧
    (filter_normalize_uri_helper s = normalize_uri_helper s ∨
      filter_normalize_uri_helper s = "about:invalid#zSoyz") ∧
    (filter_normalize_media_uri_helper s = normalize_uri_helper s ∨
      filter_normalize_media_uri_helper s = "about:invalid#zSoyz") := by
  unfold filter_css_value_helper filter_image_data_uri_helper filter_sip_uri_helper
    filter_sms_uri_helper filter_tel_uri_helper filter_html_attributes_helper
    filter_html_element_name_helper filter_csp_nonce_value_helper
    filter_normalize_uri_helper filter_normalize_media_uri_helper
  refine ⟨?_, ?_, ?_, ?_, ?_, ?_, ?_, ?_, ?_, ?_⟩ <;> (split <;> simp)


/-! ## Claim C2: escape tables -/

/-- Evaluating a single-character-class substitution on a one-character
string. -/
theorem subChars_singleton (m : Char → Bool) (t : List (Char × String)) (c : Char) :
    subChars m t (String.singleton c) = if m c then lookupEscape t c else String.singleton c := by
  simp [subChars, String.join, String.singleton]

/-- Enumeration principle for a character known to lie in a class range. -/
theorem char_range_elim {P : Char → Prop} {lo hi : Char} (c : Char)
    (h1 : lo ≤ c) (h2 : c ≤ hi)
    (hall : ∀ n, n < hi.toNat + 1 - lo.toNat → P (Char.ofNat (lo.toNat + n))) : P c := by
  have h1n : lo.toNat ≤ c.toNat := h1
  have h2n : c.toNat ≤ hi.toNat := h2
  have h3 := Char.ofNat_toNat c
  rw [← h3]
  have he : c.toNat = lo.toNat + (c.toNat - lo.toNat) := by omega
  rw [he]
  exact hall (c.toNat - lo.toNat) (by omega)

/-- Every character of the ESCAPE_HTML matcher class has a table entry. -/
theorem escHtmlTotal (c : Char) (h : matcherForEscapeHtml c = true) :
    (escapeMapForEscapeHtml.find? (fun e => e.1 == c)).isSome = true := by
  simp only [matcherForEscapeHtml, Bool.or_eq_true, Bool.and_eq_true, decide_eq_true_eq,
    beq_iff_eq, or_assoc] at h
  rcases h with h|h|h|h|h|h <;> (subst h; decide)

/-- Every character of the ESCAPE_HTML_NOSPACE matcher class has a table
entry. -/
theorem escHtmlNospaceTotal (c : Char) (h : matcherForEscapeHtmlNospace c = true) :
    (escapeMapForEscapeHtml.find? (fun e => e.1 == c)).isSome = true := by
  simp only [matcherForEscapeHtmlNospace, Bool.or_eq_true, Bool.and_eq_true, decide_eq_true_eq,
    beq_iff_eq, or_assoc] at h
  rcases h with h|h|h|h|h|h|h|h|h|h|h|h|h|h <;>
    first
      | (subst h; decide)
      | (apply char_range_elim c h.1 h.2; decide)

/-- Every character of the ESCAPE_JS_STRING matcher class has a table
entry. -/
theorem escJsStringTotal (c : Char) (h : matcherForEscapeJsString c = true) :
    (escapeMapForEscapeJs.find? (fun e => e.1 == c)).isSome = true := by
  simp only [matcherForEscapeJsString, Bool.or_eq_true, Bool.and_eq_true, decide_eq_true_eq,
    beq_iff_eq, or_assoc] at h
  rcases h with h|h|h|h|h|h|h|h|h|h|h|h|h <;>
    first
      | (subst h; decide)
      | (apply char_range_elim c h.1 h.2; decide)

/-- Every character of the ESCAPE_JS_REGEX matcher class has a table
entry. -/
theorem escJsRegexTotal (c : Char) (h : matcherForEscapeJsRegex c = true) :
    (escapeMapForEscapeJs.find? (fun e => e.1 == c)).isSome = true := by
  simp only [matcherForEscapeJsRegex, Bool.or_eq_true, Bool.and_eq_true, decide_eq_true_eq,
    beq_iff_eq, or_assoc] at h
  rcases h with h|h|h|h|h|h|h|h|h|h|h|h <;>
    first
      | (subst h; decide)
      | (apply char_range_elim c h.1 h.2; decide)

/-- Every character of the ESCAPE_CSS_STRING matcher class has a table
entry. -/
theorem escCssStringTotal (c : Char) (h : matcherForEscapeCssString c = true) :
    (escapeMapForEscapeCssString.find? (fun e => e.1 == c)).isSome = true := by
  simp only [matcherForEscapeCssString, Bool.or_eq_true, Bool.and_eq_true, decide_eq_true_eq,
    beq_iff_eq, or_assoc] at h
  rcases h with h|h|h|h|h|h|h|h|h|h|h|h|h|h <;>
    first
      | (subst h; decide)
      | (apply char_range_elim c h.1 h.2; decide)

/-- The per-context statement of claim C2: a character of the matcher
class has an entry in the escape map and the helper returns exactly that
entry; any other character is returned unchanged. -/
def EscapesPerTable (matcher : Char → Bool) (table : List (Char × String))
    (helper : String → String) : Prop :=
  ∀ c : Char,
    (matcher c = true →
      (table.find? (fun e => e.1 == c)).isSome = true ∧
      helper (String.singleton c) = lookupEscape table c) ∧
    (matcher c = false → helper (String.singleton c) = String.singleton c)

theorem escapesHtml :
    EscapesPerTable matcherForEscapeHtml escapeMapForEscapeHtml escape_html_helper := by
  intro c
  refine ⟨fun h => ⟨escHtmlTotal c h, ?_⟩, fun h => ?_⟩ <;>
    simp [escape_html_helper, subChars_singleton, h]

theorem escapesHtmlNospace :
    EscapesPerTable matcherForEscapeHtmlNospace escapeMapForEscapeHtml
      escape_html_nospace_helper := by
  intro c
  refine ⟨fun h => ⟨escHtmlNospaceTotal c h, ?_⟩, fun h => ?_⟩ <;>
    simp [escape_html_nospace_helper, subChars_singleton, h]

theorem escapesJsString :
    EscapesPerTable matcherForEscapeJsString escapeMapForEscapeJs escape_js_string_helper := by
  intro c
  refine ⟨fun h => ⟨escJsStringTotal c h, ?_⟩, fun h => ?_⟩ <;>
    simp [escape_js_string_helper, subChars_singleton, h]

theorem escapesJsRegex :
    EscapesPerTable matcherForEscapeJsRegex escapeMapForEscapeJs escape_js_regex_helper := by
  intro c
  refine ⟨fun h => ⟨escJsRegexTotal c h, ?_⟩, fun h => ?_⟩ <;>
    simp [escape_js_regex_helper, subChars_singleton, h]

theorem escapesCssString :
    EscapesPerTable matcherForEscapeCssString escapeMapForEscapeCssString
      escape_css_string_helper := by
  intro c
  refine ⟨fun h => ⟨escCssStringTotal c h, ?_⟩, fun h => ?_⟩ <;>
    simp [escape_css_string_helper, subChars_singleton, h]

/-- Claim C2: for each escaping context (HTML, HTML_NOSPACE, JS_STRING,
JS_REGEX, CSS_STRING) and every character, a character of the context's
matcher class is replaced by exactly the substitute its escape map lists
(which exists), and a character outside the class is returned
unchanged. -/
theorem C2_escape_tables :
    EscapesPerTable matcherForEscapeHtml escapeMapForEscapeHtml escape_html_helper ∧
    EscapesPerTable matcherForEscapeHtmlNospace escapeMapForEscapeHtml
      escape_html_nospace_helper ∧
    EscapesPerTable matcherForEscapeJsString escapeMapForEscapeJs escape_js_string_helper ∧
    EscapesPerTable matcherForEscapeJsRegex escapeMapForEscapeJs escape_js_regex_helper ∧
    EscapesPerTable matcherForEscapeCssString escapeMapForEscapeCssString
      escape_css_string_helper :=
  ⟨escapesHtml, escapesHtmlNospace, escapesJsString, escapesJsRegex, escapesCssString⟩

/-- Witness for claim C2 at the dangerous character < in the HTML context
and the untouched character a. -/
theorem C2_escape_tables_witness :
    escape_html_helper (String.singleton '<') = lookupEscape escapeMapForEscapeHtml '<' ∧
    escape_html_helper (String.singleton 'a') = String.singleton 'a' :=
  ⟨((C2_escape_tables.1 '<').1 (by decide)).2, (C2_escape_tables.1 'a').2 (by decide)⟩


/-! ## Claim C10: escape_html output contains no dangerous character -/

theorem toList_foldl_append (l : List String) (a : String) :
    (l.foldl (fun r s => r ++ s) a).toList = a.toList ++ l.flatMap String.toList := by
  induction l generalizing a with
  | nil => simp
  | cons x xs ih => rw [List.foldl_cons, ih (a ++ x)]; simp [String.toList, List.append_assoc]

theorem toList_join (l : List String) :
    (String.join l).toList = l.flatMap String.toList := by
  have h := toList_foldl_append l ""
  simpa [String.join] using h

/-- The five characters claim C10 forbids in escaped HTML output. -/
def noHtmlDangerChars (s : String) : Bool :=
  s.toList.all (fun c => !(c == '\x00' || c == '\"' || c == '\'' || c == '<' || c == '>'))

/-- Each per-character replacement escape_html_helper performs is free of
the five dangerous characters: a matched character maps to an entity
without them, an unmatched character cannot be one of them (the matcher
class contains all five). -/
theorem htmlPieceSafe (c : Char) :
    ((if matcherForEscapeHtml c then lookupEscape escapeMapForEscapeHtml c
      else String.singleton c).toList.all
        (fun c => !(c == '\x00' || c == '\"' || c == '\'' || c == '<' || c == '>'))) = true := by
  cases hM : matcherForEscapeHtml c
  · have h5 := hM
    simp only [matcherForEscapeHtml, Bool.or_eq_false_iff, beq_eq_false_iff_ne, ne_eq] at h5
    obtain ⟨⟨⟨⟨⟨ne00, ne22⟩, _⟩, ne27⟩, ne3c⟩, ne3e⟩ := h5
    simp [hM, String.singleton, ne00, ne22, ne27, ne3c, ne3e]
  · simp only [hM, if_true]
    have h6 := hM
    simp only [matcherForEscapeHtml, Bool.or_eq_true, beq_iff_eq, or_assoc] at h6
    rcases h6 with h|h|h|h|h|h <;> (subst h; decide)

/-- Claim C10: for every input, the output of escape_html_helper contains
no NUL, double quote, single quote, less-than or greater-than character:
each of the five is in the matcher class (so it is always replaced), and
no replacement in the escape table reintroduces one of them. -/
theorem C10_escape_html_safe (s : String) :
    noHtmlDangerChars (escape_html_helper s) = true := by
  unfold noHtmlDangerChars escape_html_helper subChars
  rw [toList_join]
  induction s.toList with
  | nil => rfl
  | cons c r ih =>
    simp only [List.map_cons, List.flatMap_cons, List.all_append]
    rw [htmlPieceSafe c, ih]
    rfl


/-! ## Claim C3: delegate registration -/

/-- Claim C3: register_delegate_fn replaces the entry exactly when the
key is unregistered or the new priority is strictly higher; it errors
exactly when the priorities are equal and the implementation names
differ (the stored entry is untouched, no new registry being produced);
equal priority with the same name, and strictly lower priority, leave
the registry unchanged and raise nothing.  The five cases are exhaustive
and mutually exclusive, so they determine the function completely. -/
theorem C3_register_delegate (reg : DelegateRegistry) (template_id variant : String)
    (priority : Int) (fn : TemplateFn) (fn_name : String) :
    (reg (_gen_delegate_id template_id variant) = Option.none →
      register_delegate_fn reg template_id variant priority fn fn_name =
        Except.ok (registryInsert reg (_gen_delegate_id template_id variant)
          ⟨priority, fn, fn_name⟩)) ∧
    (∀ curr, reg (_gen_delegate_id template_id variant) = some curr →
      (curr.priority < priority →
        register_delegate_fn reg template_id variant priority fn fn_name =
          Except.ok (registryInsert reg (_gen_delegate_id template_id variant)
            ⟨priority, fn, fn_name⟩)) ∧
      (priority = curr.priority → fn_name ≠ curr.fn_name →
        register_delegate_fn reg template_id variant priority fn fn_name =
          Except.error ("Encountered two active delegates with the same priority (" ++
            template_id ++ ":" ++ variant ++ ":" ++ toString priority ++ ").")) ∧
      (priority = curr.priority → fn_name = curr.fn_name →
        register_delegate_fn reg template_id variant priority fn fn_name = Except.ok reg) ∧
      (priority < curr.priority →
        register_delegate_fn reg template_id variant priority fn fn_name = Except.ok reg)) := by
  constructor
  · intro h
    simp [register_delegate_fn, h]
  · intro curr h
    refine ⟨fun hp => ?_, fun hp hn => ?_, fun hp hn => ?_, fun hp => ?_⟩
    · simp [register_delegate_fn, h, hp]
    · subst hp
      simp [register_delegate_fn, h, lt_irrefl, hn]
    · subst hp hn
      simp [register_delegate_fn, h, lt_irrefl]
    · have h1 : ¬(curr.priority < priority) := by omega
      have h2 : ¬(priority = curr.priority) := by omega
      simp [register_delegate_fn, h, h1, h2]

/-- Witness for claim C3: registering into the empty registry stores the
new entry. -/
theorem C3_register_delegate_witness :
    register_delegate_fn (fun _ => Option.none) "t" "" 1 _empty_template_function "A" =
      Except.ok (registryInsert (fun _ => Option.none) (_gen_delegate_id "t" "")
        ⟨1, _empty_template_function, "A"⟩) :=
  (C3_register_delegate (fun _ => Option.none) "t" "" 1 _empty_template_function "A").1 rfl

/-! ## Claim C4: delegate resolution -/

/-- Claim C4: get_delegate_fn returns the implementation stored under
(template_id, variant); failing that and when the variant is non-empty,
the implementation stored under (template_id, empty variant); failing
both, the empty-output template when allow_empty_default is true, and
otherwise an error naming template_id and variant. -/
theorem C4_get_delegate (reg : DelegateRegistry) (template_id variant : String)
    (allow_empty_default : Bool) :
    (∀ e, reg (_gen_delegate_id template_id variant) = some e →
      get_delegate_fn reg template_id variant allow_empty_default = Except.ok e.fn) ∧
    (reg (_gen_delegate_id template_id variant) = Option.none → variant ≠ "" →
      ∀ e, reg (_gen_delegate_id template_id "") = some e →
        get_delegate_fn reg template_id variant allow_empty_default = Except.ok e.fn) ∧
    (reg (_gen_delegate_id template_id variant) = Option.none →
      reg (_gen_delegate_id template_id "") = Option.none →
      (allow_empty_default = true →
        get_delegate_fn reg template_id variant allow_empty_default =
          Except.ok _empty_template_function) ∧
      (allow_empty_default = false →
        get_delegate_fn reg template_id variant allow_empty_default =
          Except.error ("Found no active impl for delegate call to \"" ++ template_id ++
            (if variant != "" then ":" ++ variant else "") ++
            "\" (and delcall does not set allowemptydefault=\"true\")."))) ∧
    (∀ d, _empty_template_function d = "") := by
  refine ⟨?_, ?_, ?_, fun d => rfl⟩
  · intro e h
    simp [get_delegate_fn, h]
  · intro h1 hv e h2
    have hvb : (variant != "") = true := by simpa using hv
    simp [get_delegate_fn, h1, hvb, h2]
  · intro h1 h2
    constructor <;> intro ha <;> subst ha <;>
      (cases hvb : variant != "" <;> simp_all [get_delegate_fn])

/-- Witness for claim C4: resolving against the empty registry with the
empty default allowed yields the empty-output template. -/
theorem C4_get_delegate_witness :
    get_delegate_fn (fun _ => Option.none) "t" "v" true = Except.ok _empty_template_function ∧
    _empty_template_function "data" = "" :=
  ⟨((C4_get_delegate (fun _ => Option.none) "t" "v" true).2.2.1 rfl rfl).1 rfl, rfl⟩


/-! ## Claim C7: the example equations of type_safe_add -/

/-- Claim C7, counterexample: the fourth example equation fails on the
code.  In string mode every operand goes through _convert_to_js_string,
which lowercases booleans, so the string-first fold yields abctrue3 and
not the abcTrue3 the docstring example (and the claim) states. -/
theorem C7_counterexample :
    type_safe_add [SoyVal.str "abc", SoyVal.bool true, SoyVal.int 3] =
      some (SoyVal.str "abctrue3") ∧ "abctrue3" ≠ "abcTrue3" :=
  ⟨by decide, by decide⟩

/-- Claim C7, amended: the four example equations with the boolean in the
string-first case stringified lowercase, as _convert_to_js_string
produces it. -/
theorem C7_amended :
    type_safe_add [SoyVal.bool true, SoyVal.bool true] = some (SoyVal.int 2) ∧
    type_safe_add [SoyVal.bool true, SoyVal.int 3] = some (SoyVal.int 4) ∧
    type_safe_add [SoyVal.int 3, SoyVal.str "abc"] = some (SoyVal.str "3abc") ∧
    type_safe_add [SoyVal.str "abc", SoyVal.bool true, SoyVal.int 3] =
      some (SoyVal.str "abctrue3") :=
  ⟨by decide, by decide, by decide, by decide⟩

/-! ## Claim C8: the fold discipline of type_safe_add -/

/-- Claim C8: in string mode each operand is stringified with null
becoming "null" and booleans the lowercase literals before concatenation
(and the fold stays in string mode); in numeric mode a type mismatch on
a non-None operand switches the fold to string mode permanently; a None
operand added to a numeric running total is instead re-added as False,
leaving the total numeric and the mode unchanged. -/
theorem C8_fold_discipline :
    (∀ (s : String) (arg : SoyVal),
      addStep (SoyVal.str s, true) arg =
        some (SoyVal.str (s ++ _convert_to_js_string arg), true)) ∧
    _convert_to_js_string SoyVal.none = "null" ∧
    (∀ b, _convert_to_js_string (SoyVal.bool b) = (if b then "true" else "false")) ∧
    (∀ result arg : SoyVal, isStringVal result = false → isNoneVal result = false →
      pyAdd result arg = Option.none → isNoneVal arg = false →
      addStep (result, false) arg =
        some (SoyVal.str (_convert_to_js_string result ++ _convert_to_js_string arg), true)) ∧
    (∀ n : Int, addStep (SoyVal.int n, false) SoyVal.none = some (SoyVal.int n, false)) ∧
    (∀ q : ℚ, addStep (SoyVal.float q, false) SoyVal.none = some (SoyVal.float q, false)) ∧
    (∀ b : Bool,
      addStep (SoyVal.bool b, false) SoyVal.none = some (SoyVal.int (boolToInt b), false)) := by
  refine ⟨fun s arg => rfl, rfl, fun b => rfl, ?_, ?_, ?_, ?_⟩
  · intro result arg hs hn hadd han
    cases arg with
    | none => simp [isNoneVal] at han
    | bool b => simp [addStep, hadd]
    | int n => simp [addStep, hadd]
    | float q => simp [addStep, hadd]
    | str s => simp [addStep, hadd]
  · intro n
    simp [addStep, pyAdd, boolToInt]
  · intro q
    simp [addStep, pyAdd, boolToInt]
  · intro b
    simp [addStep, pyAdd, boolToInt]

/-- Witness for claim C8: a numeric total meeting a string operand
switches to string mode at the concrete inputs 3 and abc. -/
theorem C8_fold_discipline_witness :
    addStep (SoyVal.int 3, false) (SoyVal.str "abc") =
      some (SoyVal.str (_convert_to_js_string (SoyVal.int 3) ++
        _convert_to_js_string (SoyVal.str "abc")), true) :=
  C8_fold_discipline.2.2.2.1 (SoyVal.int 3) (SoyVal.str "abc") rfl rfl rfl rfl


/-! ## Claim C9: type_safe_eq coercion rules -/

/-- Claim C9: identical types compare directly; a None on either side
falls through to the plain equality with no coercion (so None and 0 are
unequal); with exactly one numeric non-boolean side — on either side —
the other side is coerced to a number, an unparsable string making the
comparison false (so 1 equals "1" and "2" equals 2.0) and a boolean
comparing by its 0/1 value; with exactly one string side (the other side
being non-numeric, per the branch order of the source) the other side is
stringified and compared. -/
theorem C9_type_safe_eq :
    (∀ a b, sameType a b = true → type_safe_eq a b = pyEq a b) ∧
    (∀ b, type_safe_eq SoyVal.none b = pyEq SoyVal.none b) ∧
    (∀ a, type_safe_eq a SoyVal.none = pyEq a SoyVal.none) ∧
    type_safe_eq SoyVal.none (SoyVal.int 0) = false ∧
    (∀ a s, isNumericNotBool a = true →
      type_safe_eq a (SoyVal.str s) =
        (match parsePyFloat s with
         | some q => numValQ a == q
         | Option.none => false)) ∧
    (∀ a s, isNumericNotBool a = true →
      type_safe_eq (SoyVal.str s) a =
        (match parsePyFloat s with
         | some q => q == numValQ a
         | Option.none => false)) ∧
    (∀ a b, isNumericNotBool a = true →
      type_safe_eq a (SoyVal.bool b) = (numValQ a == ((boolToInt b : Int) : ℚ))) ∧
    (∀ a b, isNumericNotBool a = true →
      type_safe_eq (SoyVal.bool b) a = (((boolToInt b : Int) : ℚ) == numValQ a)) ∧
    type_safe_eq (SoyVal.int 1) (SoyVal.str "1") = true ∧
    type_safe_eq (SoyVal.str "2") (SoyVal.float 2) = true ∧
    (∀ s b, type_safe_eq (SoyVal.str s) (SoyVal.bool b) = (s == pyStr (SoyVal.bool b))) ∧
    (∀ s b, type_safe_eq (SoyVal.bool b) (SoyVal.str s) = (pyStr (SoyVal.bool b) == s)) := by
  refine ⟨?_, ?_, ?_, by decide, ?_, ?_, ?_, ?_, by decide, by decide, ?_, ?_⟩
  · intro a b h
    simp [type_safe_eq, h]
  · intro b
    simp [type_safe_eq, isNoneVal]
  · intro a
    simp [type_safe_eq, isNoneVal]
  · intro a s ha
    cases a with
    | int n => cases hp : parsePyFloat s <;>
        simp [type_safe_eq, isNoneVal, sameType, isNumericNotBool, pyFloatOf, hp, pyEq, numValQ]
    | float q => cases hp : parsePyFloat s <;>
        simp [type_safe_eq, isNoneVal, sameType, isNumericNotBool, pyFloatOf, hp, pyEq, numValQ]
    | none => simp [isNumericNotBool] at ha
    | bool b => simp [isNumericNotBool] at ha
    | str t => simp [isNumericNotBool] at ha
  · intro a s ha
    cases a with
    | int n => cases hp : parsePyFloat s <;>
        simp [type_safe_eq, isNoneVal, sameType, isNumericNotBool, pyFloatOf, hp, pyEq, numValQ]
    | float q => cases hp : parsePyFloat s <;>
        simp [type_safe_eq, isNoneVal, sameType, isNumericNotBool, pyFloatOf, hp, pyEq, numValQ]
    | none => simp [isNumericNotBool] at ha
    | bool b => simp [isNumericNotBool] at ha
    | str t => simp [isNumericNotBool] at ha
  · intro a b ha
    cases a with
    | int n => simp [type_safe_eq, isNoneVal, sameType, isNumericNotBool, pyFloatOf, numValQ]
    | float q => simp [type_safe_eq, isNoneVal, sameType, isNumericNotBool, pyFloatOf, numValQ]
    | none => simp [isNumericNotBool] at ha
    | bool c => simp [isNumericNotBool] at ha
    | str t => simp [isNumericNotBool] at ha
  · intro a b ha
    cases a with
    | int n => simp [type_safe_eq, isNoneVal, sameType, isNumericNotBool, pyFloatOf, numValQ]
    | float q => simp [type_safe_eq, isNoneVal, sameType, isNumericNotBool, pyFloatOf, numValQ]
    | none => simp [isNumericNotBool] at ha
    | bool c => simp [isNumericNotBool] at ha
    | str t => simp [isNumericNotBool] at ha
  · intro s b
    simp [type_safe_eq, isNoneVal, sameType, isNumericNotBool]
  · intro s b
    simp [type_safe_eq, isNoneVal, sameType, isNumericNotBool]

/-- Witness for claim C9: the unparsable string x against a numeric side
takes the coercion branch and compares false in both operand orders, and
an integer against a boolean compares by the boolean's numeric value. -/
theorem C9_type_safe_eq_witness :
    type_safe_eq (SoyVal.int 5) (SoyVal.str "x") =
      (match parsePyFloat "x" with
       | some q => numValQ (SoyVal.int 5) == q
       | Option.none => false) ∧
    type_safe_eq (SoyVal.str "x") (SoyVal.float 2) =
      (match parsePyFloat "x" with
       | some q => q == numValQ (SoyVal.float 2)
       | Option.none => false) ∧
    type_safe_eq (SoyVal.int 1) (SoyVal.bool true) =
      (numValQ (SoyVal.int 1) == ((boolToInt true : Int) : ℚ)) :=
  ⟨C9_type_safe_eq.2.2.2.2.1 (SoyVal.int 5) "x" rfl,
   C9_type_safe_eq.2.2.2.2.2.1 (SoyVal.float 2) "x" rfl,
   C9_type_safe_eq.2.2.2.2.2.2.1 (SoyVal.int 1) true rfl⟩


/-! ## Claim C5: the direction estimate -/

/-- The exact-rational reading of the 0.40 threshold comparison, as an
integer inequality. -/
theorem threshold_lt_iff (r t : Nat) (ht : 0 < t) :
    _RTL_ESTIMATION_THRESHOLD < mkRat r t ↔ 2 * t < 5 * r := by
  have ht' : (0:ℚ) < (t:ℚ) := by exact_mod_cast ht
  rw [_RTL_ESTIMATION_THRESHOLD, Rat.mkRat_eq_div, Rat.mkRat_eq_div]
  rw [div_lt_div_iff₀ (by norm_num) ht']
  constructor
  · intro h
    have h' : 40 * t < r * 100 := by exact_mod_cast h
    omega
  · intro h
    have h' : 40 * t < r * 100 := by omega
    exact_mod_cast h'

/-- The branch structure of _estimate_direction in closed form. -/
theorem estimate_direction_eq (value : String) (is_html : Bool) :
    _estimate_direction value is_html =
      (if (count_tokens (pySplit (_strip_html_if_needed value is_html))).2.1 = 0 then
        (if (count_tokens (pySplit (_strip_html_if_needed value is_html))).2.2 then DIR.LTR
         else DIR.NEUTRAL)
       else if 2 * (count_tokens (pySplit (_strip_html_if_needed value is_html))).2.1 <
          5 * (count_tokens (pySplit (_strip_html_if_needed value is_html))).1 then DIR.RTL
       else DIR.LTR) := by
  simp only [_estimate_direction]
  by_cases h0 : (count_tokens (pySplit (_strip_html_if_needed value is_html))).2.1 = 0
  · cases hw : (count_tokens (pySplit (_strip_html_if_needed value is_html))).2.2 <;>
      simp [h0, hw]
  · have hbeq : ((count_tokens (pySplit (_strip_html_if_needed value is_html))).2.1 == 0)
        = false := by simpa using h0
    simp only [hbeq, Bool.false_and, if_neg Bool.false_ne_true, h0, if_false,
      threshold_lt_iff _ _ (Nat.pos_of_ne_zero h0)]

/-- Claim C5: _estimate_direction returns NEUTRAL with no strong token
and no weak-LTR signal (in particular on the empty string), LTR with no
strong token but a weak-LTR signal, and otherwise RTL exactly when
rtl_count / total_count strictly exceeds the 0.40 threshold - so exactly
forty percent RTL (2 of 5 strong tokens) yields LTR, and so does
"hello world". -/
theorem C5_estimate_direction (value : String) (is_html : Bool) :
    ((count_tokens (pySplit (_strip_html_if_needed value is_html))).2.1 = 0 →
      (count_tokens (pySplit (_strip_html_if_needed value is_html))).2.2 = false →
      _estimate_direction value is_html = DIR.NEUTRAL) ∧
    ((count_tokens (pySplit (_strip_html_if_needed value is_html))).2.1 = 0 →
      (count_tokens (pySplit (_strip_html_if_needed value is_html))).2.2 = true →
      _estimate_direction value is_html = DIR.LTR) ∧
    (0 < (count_tokens (pySplit (_strip_html_if_needed value is_html))).2.1 →
      ((_estimate_direction value is_html = DIR.RTL ↔
        2 * (count_tokens (pySplit (_strip_html_if_needed value is_html))).2.1 <
          5 * (count_tokens (pySplit (_strip_html_if_needed value is_html))).1) ∧
       (_estimate_direction value is_html = DIR.RTL ∨
        _estimate_direction value is_html = DIR.LTR))) ∧
    _estimate_direction "hello world" false = DIR.LTR ∧
    _estimate_direction "" false = DIR.NEUTRAL ∧
    _estimate_direction "א א a a a" false = DIR.LTR := by
  refine ⟨?_, ?_, ?_, by decide, by decide, by decide⟩
  · intro h1 h2
    rw [estimate_direction_eq]
    simp [h1, h2]
  · intro h1 h2
    rw [estimate_direction_eq]
    simp [h1, h2]
  · intro h
    have h0 : (count_tokens (pySplit (_strip_html_if_needed value is_html))).2.1 ≠ 0 := by
      omega
    rw [estimate_direction_eq]
    constructor
    · by_cases hc : 2 * (count_tokens (pySplit (_strip_html_if_needed value is_html))).2.1 <
          5 * (count_tokens (pySplit (_strip_html_if_needed value is_html))).1 <;>
        simp [h0, hc]
    · by_cases hc : 2 * (count_tokens (pySplit (_strip_html_if_needed value is_html))).2.1 <
          5 * (count_tokens (pySplit (_strip_html_if_needed value is_html))).1 <;>
        simp [h0, hc]

/-- Witness for claim C5: the ratio criterion applied to a concrete
string with two RTL tokens among five strong tokens. -/
theorem C5_estimate_direction_witness :
    _estimate_direction "א א a a a" false = DIR.RTL ↔
      2 * (count_tokens (pySplit (_strip_html_if_needed "א א a a a" false))).2.1 <
        5 * (count_tokens (pySplit (_strip_html_if_needed "א א a a a" false))).1 :=
  ((C5_estimate_direction "א א a a a" false).2.2.1 (by decide)).1


/-! ## Claim C6: token classification -/

/-- Characterization of the _RTL_DIR_CHECK_RE search: it fires exactly
when the token contains an RTL-range character preceded by no LTR-range
character. -/
theorem rtl_dir_check_iff (t : List Char) :
    rtl_dir_check t = true ↔
      ∃ pre c suf, t = pre ++ c :: suf ∧ isRtlChar c = true ∧
        ∀ d ∈ pre, isLtrChar d = false := by
  induction t with
  | nil =>
    constructor
    · intro habs
      exact absurd habs (by decide)
    · rintro ⟨pre, c, suf, habs, -, -⟩
      simp at habs
  | cons a r ih =>
    by_cases hrtl : isRtlChar a = true
    · simp only [rtl_dir_check, hrtl, if_true, true_iff]
      exact ⟨[], a, r, rfl, hrtl, by simp⟩
    · have hrtl' : isRtlChar a = false := by simpa using hrtl
      by_cases hltr : isLtrChar a = true
      · simp only [rtl_dir_check, hrtl', hltr, Bool.false_eq_true, if_false, if_true,
          false_iff]
        rintro ⟨pre, c, suf, heq, hc, hpre⟩
        cases pre with
        | nil =>
          have : a = c := by simpa using congrArg (fun l => l.head?) heq
          subst this
          rw [hc] at hrtl'
          exact Bool.true_eq_false.mp hrtl'
        | cons p ps =>
          have hp : a = p := by simpa using congrArg (fun l => l.head?) heq
          have := hpre p (by simp)
          rw [← hp, hltr] at this
          exact Bool.true_eq_false.mp this
      · have hltr' : isLtrChar a = false := by simpa using hltr
        simp only [rtl_dir_check, hrtl', hltr', Bool.false_eq_true, if_false]
        rw [ih]
        constructor
        · rintro ⟨pre, c, suf, heq, hc, hpre⟩
          refine ⟨a :: pre, c, suf, by rw [heq]; rfl, hc, ?_⟩
          intro d hd
          rcases List.mem_cons.mp hd with h | h
          · rw [h]
            exact hltr'
          · exact hpre d h
        · rintro ⟨pre, c, suf, heq, hc, hpre⟩
          cases pre with
          | nil =>
            have : a = c := by simpa using congrArg (fun l => l.head?) heq
            rw [this, hc] at hrtl'
            exact absurd hrtl' (by simp)
          | cons p ps =>
            have hp : r = ps ++ c :: suf := by simpa using congrArg List.tail heq
            exact ⟨ps, c, suf, hp, hc, fun d hd => hpre d (by simp [hd])⟩

/-- Claim C6, counterexample: the token aא contains the strong RTL
character א, yet it is classified as an LTR token (not an RTL token)
because the LTR character a precedes the RTL character, and the whole
string is estimated LTR rather than RTL. -/
theorem C6_counterexample :
    "aא".toList.any isRtlChar = true ∧
    classify_token "aא".toList = TokenClass.ltrToken ∧
    classify_token "aא".toList ≠ TokenClass.rtlToken ∧
    _estimate_direction "aא" false = DIR.LTR :=
  ⟨by decide, by decide, by decide, by decide⟩

/-- Claim C6, amended: a whitespace-delimited token is counted as an RTL
(and strong) token exactly when it contains a strong RTL-range character
preceded by no strong LTR-range character (that is, when its first
strong-directional character is RTL); a token not so counted is then
tested for the must-be-LTR pattern, strong LTR characters and digits, in
that priority order; an RTL-classified token increments both the RTL and
the strong-total counters. -/
theorem C6_amended_classification (t : List Char) :
    (classify_token t = TokenClass.rtlToken ↔
      ∃ pre c suf, t = pre ++ c :: suf ∧ isRtlChar c = true ∧
        ∀ d ∈ pre, isLtrChar d = false) ∧
    (rtl_dir_check t = false →
      classify_token t =
        (if is_required_ltr t then TokenClass.requiredLtrToken
         else if has_ltr_char t then TokenClass.ltrToken
         else if has_numerals t then TokenClass.numeralToken
         else TokenClass.neutralToken)) ∧
    (classify_token t = TokenClass.rtlToken →
      ∀ ts, (count_tokens (ts ++ [t])).1 = (count_tokens ts).1 + 1 ∧
        (count_tokens (ts ++ [t])).2.1 = (count_tokens ts).2.1 + 1) := by
  refine ⟨?_, ?_, ?_⟩
  · rw [← rtl_dir_check_iff]
    unfold classify_token
    by_cases h : rtl_dir_check t = true
    · simp [h]
    · have h' : rtl_dir_check t = false := by simpa using h
      simp only [h', Bool.false_eq_true, if_false]
      constructor
      · intro habs
        by_cases h1 : is_required_ltr t = true <;> by_cases h2 : has_ltr_char t = true <;>
          by_cases h3 : has_numerals t = true <;> simp_all
      · intro habs
        exact habs.elim
  · intro h
    simp [classify_token, h]
  · intro h ts
    simp [count_tokens, List.foldl_append, h]

/-- Witness for claim C6: the priority order applied to the concrete
token a1, which carries no strong RTL character. -/
theorem C6_amended_classification_witness :
    classify_token "a1".toList =
      (if is_required_ltr "a1".toList then TokenClass.requiredLtrToken
       else if has_ltr_char "a1".toList then TokenClass.ltrToken
       else if has_numerals "a1".toList then TokenClass.numeralToken
       else TokenClass.neutralToken) :=
  (C6_amended_classification "a1".toList).2.1 (by decide)


/-- Witness for claim C1 at the concrete value red, accepted by the CSS
value filter. -/
theorem C1_amended_witness :
    filter_css_value_helper "red" = "red" ∨ filter_css_value_helper "red" = "zSoyz" :=
  (C1_amended "red").1

/-- Witness for claim C10 at a concrete input holding three of the
dangerous characters. -/
theorem C10_escape_html_safe_witness :
    noHtmlDangerChars (escape_html_helper "a<b\"c\x00'd>") = true :=
  C10_escape_html_safe "a<b\"c\x00'd>"

end Soy
